import Mathlib

/-!
Verification of the Textify-Server shard aggregation engine.

The repository has two source files, `src/app.py` (the current variant) and
`src/main.py` (a legacy variant of the upload endpoint).  This file gives a
shallow embedding of the logic the specification's claims are about:

* the `Model` value type (a pickled dict with keys `n`, `vocabulary`,
  `total_words`) and the merge fold of `download_aggregated_model`
  (`src/app.py` lines 151-225);
* the upload/validation paths of `upload_model` in both variants
  (`src/app.py` lines 68-149, `src/main.py` lines 12-63).

Python byte blobs are modelled by their pickle-decode outcome: `Option`
valued fields stand for "decoding raised an exception" (`none`) versus a
successfully decoded value (`some`).  Python's unbounded integers carry
over to `Nat` for the count fields, whose only operation in the source is
addition.
-/

set_option autoImplicit false

namespace Textify

/-- A decoded model, the dict `{'n': ..., 'vocabulary': ..., 'total_words': ...}`
stored in a `.pkl` shard.  The vocabulary dict is modelled as an
insertion-ordered association list with unique keys, matching Python dict
iteration and update semantics. -/
structure Model where
  n : Nat
  total_words : Nat
  vocabulary : List (String × Nat)
deriving DecidableEq, Repr

/-- Python `d.get(w, 0)` on a vocabulary dict. -/
def vget (v : List (String × Nat)) (w : String) : Nat :=
  match v.lookup w with
  | some c => c
  | none => 0

/-- Python `d[w] = c` on a vocabulary dict: update in place if the key is
present, otherwise append at the end (insertion order). -/
def vset : List (String × Nat) → String → Nat → List (String × Nat)
  | [], w, c => [(w, c)]
  | (k, x) :: rest, w, c =>
    if k = w then (w, c) :: rest else (k, x) :: vset rest w c

/-- The inner vocabulary loop of the merge, `src/app.py` lines 182-183:
`for word in model['vocabulary']: aggregated['vocabulary'][word] =
aggregated['vocabulary'].get(word, 0) + 1`.  Note the source iterates the
shard's keys and adds the constant 1, not the shard's stored count. -/
def mergeVocab (agg shard : List (String × Nat)) : List (String × Nat) :=
  shard.foldl (fun a p => vset a p.1 (vget a p.1 + 1)) agg

/-- One fold step of the merge, `src/app.py` lines 180-183: sums `n` and
`total_words`, merges the vocabulary via `mergeVocab`. -/
def foldShard (agg m : Model) : Model :=
  { n := agg.n + m.n
    total_words := agg.total_words + m.total_words
    vocabulary := mergeVocab agg.vocabulary m.vocabulary }

/-- A file in the `models` store directory.  `blob` is the outcome of
`pickle.load` on its contents: `none` when loading raises (corrupt shard). -/
structure StoredFile where
  name : String
  blob : Option Model
deriving DecidableEq, Repr

/-- Python `s.endswith(suf)`, computed on the character list. -/
def strEndsWith (s suf : String) : Bool :=
  suf.data.isSuffixOf s.data

/-- The store listing of `src/app.py` line 159:
`[f for f in os.listdir(UPLOAD_FOLDER) if f.endswith('.pkl')]`. -/
def listModelFiles (store : List StoredFile) : List StoredFile :=
  store.filter (fun f => strEndsWith f.name ".pkl")

/-- One iteration of the aggregation loop, `src/app.py` lines 172-190:
state is `(aggregated, count)`; a blob that fails to load is skipped
(the `except` branch logs and continues), the first loaded model
initializes `aggregated`, later ones are folded in, and `count` is
incremented only on success. -/
def aggStep (acc : Option Model × Nat) (b : Option Model) : Option Model × Nat :=
  match b with
  | none => acc
  | some m =>
    match acc.1 with
    | none => (some m, acc.2 + 1)
    | some a => (some (foldShard a m), acc.2 + 1)

/-- The aggregation loop of `src/app.py` lines 168-190, started from
`aggregated = None`, `count = 0`. -/
def aggregateBlobs (blobs : List (Option Model)) : Option Model × Nat :=
  blobs.foldl aggStep (none, 0)

/-- Outcome of `download_aggregated_model` as seen by the caller:
either the JSON error response, or the `send_file` payload, which is
exactly `pickle.dump(aggregated)` — `some m` for a model, `none` for the
serialization of Python `None`.  No other data is in the response. -/
inductive AggResult where
  | rejected (msg : String)
  | success (payload : Option Model)
deriving DecidableEq, Repr

/-- The `download_aggregated_model` route, `src/app.py` lines 151-225:
list the `.pkl` files; if none, reject with the no-models error; otherwise
run the aggregation loop and send the pickled `aggregated` value. -/
def download_aggregated_model (store : List StoredFile) : AggResult :=
  let files := listModelFiles store
  if files.isEmpty then .rejected "No uploaded models to aggregate"
  else .success (aggregateBlobs (files.map StoredFile.blob)).1

/-- The final value of the loop variable `count` (`src/app.py` line 185),
i.e. how many shards were successfully processed.  It is logged at lines
193-212 but not part of the HTTP response. -/
def processedCount (store : List StoredFile) : Nat :=
  (aggregateBlobs ((listModelFiles store).map StoredFile.blob)).2

/-- The merge of a list of successfully decoded models, exactly as the loop
folds them: the first model initializes the aggregate, the rest are folded
in from the left. -/
def foldModels : List Model → Option Model
  | [] => none
  | m :: ms => some (ms.foldl foldShard m)

/-- Concrete shard from the specification's section 8 scenario. -/
def shardA : Model :=
  { n := 2, total_words := 10, vocabulary := [("the_cat", 3), ("a_dog", 1)] }

/-- Concrete shard from the specification's section 8 scenario. -/
def shardB : Model :=
  { n := 2, total_words := 7, vocabulary := [("the_cat", 2), ("a_mouse", 5)] }

/-- What the route computes on the store listing [shardA, shardB]. -/
def aggAB : Model :=
  { n := 4, total_words := 17
    vocabulary := [("the_cat", 4), ("a_dog", 1), ("a_mouse", 1)] }

/-- What the route computes on the store listing [shardB, shardA]. -/
def aggBA : Model :=
  { n := 4, total_words := 17
    vocabulary := [("the_cat", 3), ("a_mouse", 5), ("a_dog", 1)] }

/-- The three-shard store of the specification's partial-failure test: two
decodable shards and one corrupt one. -/
def partialStore : List StoredFile :=
  [⟨"a.pkl", some shardA⟩, ⟨"bad.pkl", none⟩, ⟨"b.pkl", some shardB⟩]

/-- A dynamically typed Python value, as far as the upload endpoints
inspect one: integers, strings, and string-keyed dicts cover every value
the validation and statistics code of `upload_model` touches. -/
inductive PyVal where
  | int (i : Int)
  | str (s : String)
  | dict (entries : List (String × PyVal))

/-- A decoded pickle payload that is a dict, as the upload endpoints
assume: `pickle.load` either raises (modelled as `none` at the call sites)
or yields a dict of string keys. -/
def PyDict : Type := List (String × PyVal)

/-- Python `k in d` on a dict. -/
def hasKey (d : PyDict) (k : String) : Bool :=
  (List.lookup k d).isSome

/-- Python `d[k]` on a dict, `none` standing for a raised `KeyError`. -/
def dget (d : PyDict) (k : String) : Option PyVal :=
  List.lookup k d

/-- Python `len(v)`: defined for dicts and strings, raises `TypeError`
(modelled as `none`) for integers. -/
def pyLen : PyVal → Option Nat
  | .int _ => none
  | .str s => some s.length
  | .dict es => some es.length

/-- Outcome of an upload request as seen by the caller: HTTP 200 success,
an HTTP 400 rejection with its error message, or an HTTP 500 from the
outer exception handler. -/
inductive UploadResult where
  | accepted (filename : String)
  | rejected (msg : String)
  | serverError
deriving DecidableEq, Repr

/-- The validation part of `upload_model` in `src/app.py` (lines 92-143),
acting on the saved-file store (a list of stored names) and the decode
outcome of the just-saved file.  The file is saved first; a load exception
or a failed membership check of the keys `n`, `vocabulary`, `total_words`
deletes the file and rejects; computing the statistics dict applies
`len` to `model_data['vocabulary']`, whose `TypeError` is caught by the
same handler (delete, then reject); otherwise the upload is accepted and
the file stays. -/
def upload_model_app (store : List String) (filename : String)
    (loaded : Option PyDict) : UploadResult × List String :=
  let store1 := store ++ [filename]
  match loaded with
  | none => (.rejected "Model validation failed", store1.erase filename)
  | some md =>
    if !(hasKey md "n" && hasKey md "vocabulary" && hasKey md "total_words") then
      (.rejected "Invalid model structure", store1.erase filename)
    else
      match dget md "vocabulary" with
      | some v =>
        match pyLen v with
        | some _ => (.accepted filename, store1)
        | none => (.rejected "Model validation failed", store1.erase filename)
      | none => (.rejected "Model validation failed", store1.erase filename)

/-- The validation part of `upload_model` in `src/main.py` (lines 33-59).
The file is saved, then: a load exception deletes the file and rejects;
the membership check covers only `n` and `vocabulary`, and its rejection
branch (line 42) returns WITHOUT deleting the saved file; the response
then evaluates `len(model_data['vocabulary'])` and
`model_data['total_words']` outside the inner try, so a `TypeError` or
`KeyError` there reaches the outer handler (HTTP 500) with the file still
persisted. -/
def upload_model_main (store : List String) (filename : String)
    (loaded : Option PyDict) : UploadResult × List String :=
  let store1 := store ++ [filename]
  match loaded with
  | none => (.rejected "Model validation failed", store1.erase filename)
  | some md =>
    if !(hasKey md "n" && hasKey md "vocabulary") then
      (.rejected "Invalid model format", store1)
    else
      match dget md "vocabulary" with
      | some v =>
        match pyLen v with
        | some _ =>
          match dget md "total_words" with
          | some _ => (.accepted filename, store1)
          | none => (.serverError, store1)
        | none => (.serverError, store1)
      | none => (.serverError, store1)

/-- Modelled from the spec (section 3): what a type-correct decoded Model
is — `order` a positive integer, `vocabulary` a dict of non-negative
integer counts, `totalWords` a non-negative integer.  Used only to state
the type-correctness half of claim C4 against the code's membership-only
check. -/
def specTypeCorrect (md : PyDict) : Bool :=
  (match dget md "n" with
   | some (.int i) => decide (0 < i)
   | _ => false) &&
  (match dget md "vocabulary" with
   | some (.dict es) =>
     es.all (fun p =>
       match p.2 with
       | .int c => decide (0 ≤ c)
       | _ => false)
   | _ => false) &&
  (match dget md "total_words" with
   | some (.int t) => decide (0 ≤ t)
   | _ => false)

/-- A decoded payload with all three keys present but a string where the
order `n` should be: type-incorrect yet accepted by `upload_model`. -/
def badTyped : PyDict :=
  [("n", .str "two"), ("vocabulary", .dict []), ("total_words", .int 5)]

/-- A decoded payload missing the `n` (order) key. -/
def missingOrder : PyDict :=
  [("vocabulary", .dict []), ("total_words", .int 5)]

end Textify

namespace Textify

/-- Running the aggregation loop from an already-initialized aggregate folds
in exactly the blobs that decode, in order, and counts them. -/
theorem foldl_aggStep_some (blobs : List (Option Model)) (a : Model) (c : Nat) :
    blobs.foldl aggStep (some a, c)
      = (some ((blobs.filterMap id).foldl foldShard a),
         c + (blobs.filterMap id).length) := by
  induction blobs generalizing a c with
  | nil => simp
  | cons b t ih =>
    cases b with
    | none => simpa [aggStep] using ih a c
    | some m =>
      simp only [List.foldl_cons, aggStep, List.filterMap_cons]
      rw [ih (foldShard a m) (c + 1)]
      simp [Nat.add_comm, Nat.add_assoc, Nat.add_left_comm]

/-- Running the aggregation loop from the uninitialized state: the result is
the merge of the blobs that decode, and the count is how many decoded. -/
theorem foldl_aggStep_none (blobs : List (Option Model)) (c : Nat) :
    blobs.foldl aggStep (none, c)
      = (foldModels (blobs.filterMap id), c + (blobs.filterMap id).length) := by
  induction blobs generalizing c with
  | nil => simp [foldModels]
  | cons b t ih =>
    cases b with
    | none => simpa [aggStep] using ih c
    | some m =>
      simp only [List.foldl_cons, aggStep, List.filterMap_cons]
      rw [foldl_aggStep_some t m (c + 1)]
      simp [foldModels, Nat.add_comm, Nat.add_assoc, Nat.add_left_comm]

/-- The whole aggregation loop equals the merge of the decodable blobs
paired with their number. -/
theorem aggregateBlobs_spec (blobs : List (Option Model)) :
    aggregateBlobs blobs
      = (foldModels (blobs.filterMap id), (blobs.filterMap id).length) := by
  simpa using foldl_aggStep_none blobs 0

/-- The aggregate's `n` field after a fold is the starting `n` plus the sum
of the folded shards' `n` fields. -/
theorem foldl_foldShard_n (ms : List Model) (a : Model) :
    (ms.foldl foldShard a).n = a.n + (ms.map Model.n).sum := by
  induction ms generalizing a with
  | nil => simp
  | cons m t ih => simp [ih, foldShard, Nat.add_assoc]

/-- The aggregate's `total_words` field after a fold is the starting value
plus the sum of the folded shards' `total_words` fields. -/
theorem foldl_foldShard_totalWords (ms : List Model) (a : Model) :
    (ms.foldl foldShard a).total_words
      = a.total_words + (ms.map Model.total_words).sum := by
  induction ms generalizing a with
  | nil => simp
  | cons m t ih => simp [ih, foldShard, Nat.add_assoc]

/-- Claim C1.  Evaluation of the merge at the specification's own section 8
scenario: folding shard B (stored count 2 for "the_cat") into shard A
(stored count 3) leaves "the_cat" at 4 = 3 + 1, not at the claimed
3 + 2 = 5.  The code increments by the constant 1 per token, contradicting
the contract that the merge sums stored counts. -/
theorem c1_merge_increments_by_one :
    vget (foldShard shardA shardB).vocabulary "the_cat" = 4 ∧
    vget shardA.vocabulary "the_cat" + vget shardB.vocabulary "the_cat" = 5 := by
  decide

/-- Claim C2.  Evaluation of the whole aggregation route at the two
permutations of a two-shard store: the vocabulary mappings differ
("the_cat" ends at 4 in one order and at 3 in the other), so folding the
same decoded shards in a different store-listing order changes the result,
contradicting the claimed order-independence. -/
theorem c2_merge_is_order_dependent :
    download_aggregated_model [⟨"a.pkl", some shardA⟩, ⟨"b.pkl", some shardB⟩]
      = .success (some aggAB) ∧
    download_aggregated_model [⟨"b.pkl", some shardB⟩, ⟨"a.pkl", some shardA⟩]
      = .success (some aggBA) ∧
    vget aggAB.vocabulary "the_cat" = 4 ∧ vget aggBA.vocabulary "the_cat" = 3 := by
  decide

/-- Claim C7.  If the store listing contains no `.pkl` file, the route
returns the no-models rejection. -/
theorem c7_empty_store_rejected (store : List StoredFile)
    (h : listModelFiles store = []) :
    download_aggregated_model store
      = .rejected "No uploaded models to aggregate" := by
  simp [download_aggregated_model, h]

/-- Witness for C7: a store holding only a non-`.pkl` file is rejected. -/
theorem c7_witness :
    download_aggregated_model [⟨"notes.txt", none⟩]
      = .rejected "No uploaded models to aggregate" :=
  c7_empty_store_rejected [⟨"notes.txt", none⟩] (by decide)

/-- On any non-empty listing, the route returns the merge of exactly the
decodable shards and the processed count is their number. -/
theorem download_spec (store : List StoredFile)
    (h : listModelFiles store ≠ []) :
    download_aggregated_model store
      = .success (foldModels
          (((listModelFiles store).map StoredFile.blob).filterMap id)) ∧
    processedCount store
      = (((listModelFiles store).map StoredFile.blob).filterMap id).length := by
  rcases hl : listModelFiles store with _ | ⟨g, gs⟩
  · exact absurd hl h
  · constructor
    · simp [download_aggregated_model, hl, aggregateBlobs_spec]
    · simp [processedCount, hl, aggregateBlobs_spec]

/-- Claim C6.  Whenever at least one listed shard decodes, the route does
not abort on decode failures: it returns the merge of exactly the
successfully decoded shards, and the processed count is their number. -/
theorem c6_decode_failures_skipped (store : List StoredFile)
    (h : ((listModelFiles store).map StoredFile.blob).filterMap id ≠ []) :
    download_aggregated_model store
      = .success (foldModels
          (((listModelFiles store).map StoredFile.blob).filterMap id)) ∧
    processedCount store
      = (((listModelFiles store).map StoredFile.blob).filterMap id).length := by
  have hne : listModelFiles store ≠ [] := by
    intro h0
    exact h (by simp [h0])
  exact download_spec store hne

/-- Witness for C6: with two good shards and one corrupt shard the route
succeeds with the merge of the two good shards and a processed count of 2
out of 3 listed files. -/
theorem c6_witness :
    download_aggregated_model partialStore
      = .success (foldModels [shardA, shardB]) ∧
    processedCount partialStore = 2 :=
  c6_decode_failures_skipped partialStore (by decide)

/-- Claim C10.  When the listing is non-empty but no listed shard decodes,
the route still succeeds: the payload is the serialization of the absent
aggregate (Python `None`) and the processed count is zero. -/
theorem c10_all_corrupt_still_success (store : List StoredFile)
    (h1 : listModelFiles store ≠ [])
    (h2 : ((listModelFiles store).map StoredFile.blob).filterMap id = []) :
    download_aggregated_model store = .success none ∧
    processedCount store = 0 := by
  have hd := download_spec store h1
  rw [h2] at hd
  exact hd

/-- Witness for C10: two corrupt `.pkl` files yield a success response whose
payload encodes no model, with zero shards processed. -/
theorem c10_witness :
    download_aggregated_model [⟨"x.pkl", none⟩, ⟨"y.pkl", none⟩]
      = .success none ∧
    processedCount [⟨"x.pkl", none⟩, ⟨"y.pkl", none⟩] = 0 :=
  c10_all_corrupt_still_success [⟨"x.pkl", none⟩, ⟨"y.pkl", none⟩]
    (by decide) (by decide)

/-- Claim C8.  Folding two or more decoded shards sums the `n` (order)
fields and sums the `total_words` fields. -/
theorem c8_fold_sums_order_and_totalWords (ms : List Model)
    (h : 2 ≤ ms.length) :
    ∃ agg, foldModels ms = some agg ∧
      agg.n = (ms.map Model.n).sum ∧
      agg.total_words = (ms.map Model.total_words).sum := by
  cases ms with
  | nil => simp at h
  | cons m t =>
    refine ⟨t.foldl foldShard m, rfl, ?_, ?_⟩
    · simp [foldl_foldShard_n]
    · simp [foldl_foldShard_totalWords]

/-- Witness for C8: the two section 8 shards fold to order 2 + 2 = 4 and
total words 10 + 7 = 17. -/
theorem c8_witness :
    ∃ agg, foldModels [shardA, shardB] = some agg ∧
      agg.n = 4 ∧ agg.total_words = 17 :=
  c8_fold_sums_order_and_totalWords [shardA, shardB] (by decide)

/-- Claim C5 counterexample.  Two stores — one with two good shards, the
other with the same two good shards plus a corrupt third — produce
byte-for-byte identical responses, although their shard totals (2 vs 3)
and hence the processed/total discrepancy differ.  The response is only
the encoded model; the counts are not returned, so the caller cannot
observe the discrepancy. -/
theorem c5_counterexample_counts_not_returned :
    download_aggregated_model
        [⟨"a.pkl", some shardA⟩, ⟨"b.pkl", some shardB⟩]
      = download_aggregated_model
        [⟨"a.pkl", some shardA⟩, ⟨"b.pkl", some shardB⟩, ⟨"c.pkl", none⟩] ∧
    (listModelFiles [⟨"a.pkl", some shardA⟩, ⟨"b.pkl", some shardB⟩]).length
      = 2 ∧
    (listModelFiles
        [⟨"a.pkl", some shardA⟩, ⟨"b.pkl", some shardB⟩, ⟨"c.pkl", none⟩]).length
      = 3 ∧
    processedCount
        [⟨"a.pkl", some shardA⟩, ⟨"b.pkl", some shardB⟩, ⟨"c.pkl", none⟩]
      = 2 := by
  decide

/-- Claim C5, amended.  The response of a successful aggregation contains
only the encoded model: appending any undecodable file to the store changes
the shard total but leaves the response identical, so skipped shards are
invisible to the caller (they are only logged). -/
theorem c5_amended_response_omits_counts (store : List StoredFile)
    (f : StoredFile) (h1 : listModelFiles store ≠ []) (h2 : f.blob = none) :
    download_aggregated_model (store ++ [f])
      = download_aggregated_model store := by
  have hfil : listModelFiles (store ++ [f])
      = listModelFiles store ++ listModelFiles [f] := by
    simp [listModelFiles, List.filter_append]
  have hone : listModelFiles [f] = [] ∨ listModelFiles [f] = [f] := by
    by_cases hp : strEndsWith f.name ".pkl"
    · right
      simp [listModelFiles, List.filter_cons, hp]
    · left
      simp [listModelFiles, List.filter_cons, hp]
  have hne2 : listModelFiles (store ++ [f]) ≠ [] := by
    rw [hfil]
    intro hx
    rw [List.append_eq_nil] at hx
    exact h1 hx.1
  have hgoods :
      ((listModelFiles (store ++ [f])).map StoredFile.blob).filterMap id
        = ((listModelFiles store).map StoredFile.blob).filterMap id := by
    rcases hone with ho | ho
    · rw [hfil, ho, List.append_nil]
    · rw [hfil, ho, List.map_append, List.filterMap_append]
      simp [h2]
  rw [(download_spec (store ++ [f]) hne2).1, (download_spec store h1).1, hgoods]

/-- Witness for the amended C5: adding a corrupt `.pkl` file to a one-shard
store leaves the response unchanged. -/
theorem c5_amended_witness :
    download_aggregated_model ([⟨"a.pkl", some shardA⟩] ++ [⟨"c.pkl", none⟩])
      = download_aggregated_model [⟨"a.pkl", some shardA⟩] :=
  c5_amended_response_omits_counts [⟨"a.pkl", some shardA⟩]
    ⟨"c.pkl", none⟩ (by decide) rfl

/-- Claim C3.  Evaluation at a rejected submission: `src/main.py` rejects a
payload missing the `n` key with "Invalid model format" but leaves the
just-saved file in the store, so a shard remains persisted after the
rejection; the `src/app.py` variant deletes it on the same input. -/
theorem c3_mainpy_rejection_leaves_file :
    upload_model_main [] "dev_20250101_120000.pkl" (some missingOrder)
      = (.rejected "Invalid model format", ["dev_20250101_120000.pkl"]) ∧
    upload_model_app [] "dev_20250101_120000.pkl" (some missingOrder)
      = (.rejected "Invalid model structure", []) := by
  decide

/-- Claim C4 counterexample.  A payload with all three keys present but the
order field bound to a string is not type-correct in the specification's
sense, yet `src/app.py` accepts it: the validation is a key-membership
check only, so "accepts only if type-correct" fails. -/
theorem c4_counterexample_no_type_check :
    (upload_model_app [] "dev_20250101_120000.pkl" (some badTyped)).1
      = .accepted "dev_20250101_120000.pkl" ∧
    specTypeCorrect badTyped = false := by
  decide

/-- Claim C4, amended.  The invalid-structure rejection is exactly a
key-membership test: `src/app.py` rejects a decoded dict as invalid
structure precisely when one of `n`, `vocabulary`, `total_words` is
absent (values' types are never checked), and the `src/main.py` variant
tests only `n` and `vocabulary`. -/
theorem c4_amended_membership_only (store : List String) (filename : String)
    (md : PyDict) :
    ((upload_model_app store filename (some md)).1
        = .rejected "Invalid model structure"
      ↔ (hasKey md "n" && hasKey md "vocabulary" && hasKey md "total_words")
          = false) ∧
    ((upload_model_main store filename (some md)).1
        = .rejected "Invalid model format"
      ↔ (hasKey md "n" && hasKey md "vocabulary") = false) := by
  constructor
  · cases h : (hasKey md "n" && hasKey md "vocabulary" && hasKey md "total_words") with
    | false => simp [upload_model_app, h]
    | true =>
      simp only [upload_model_app, h, Bool.not_true, Bool.false_eq_true,
        if_false]
      rcases hv : dget md "vocabulary" with _ | v
      · simp
      · rcases hl : pyLen v with _ | k <;> simp [hl]
  · cases h : (hasKey md "n" && hasKey md "vocabulary") with
    | false => simp [upload_model_main, h]
    | true =>
      simp only [upload_model_main, h, Bool.not_true, Bool.false_eq_true,
        if_false]
      rcases hv : dget md "vocabulary" with _ | v
      · simp
      · rcases hl : pyLen v with _ | k
        · simp [hl]
        · rcases ht : dget md "total_words" with _ | t <;> simp [hl, ht]

end Textify
